import Mathlib

/-!
Shallow embedding of the conformer-generation framework
(`task/base.py`, `embedders.py`, `optimizer/forcefield.py`,
`verifier/gaussian.py`) and proofs about its specified behaviour.

Machine-external collaborators (RDKit molecules, force fields, log
parsers, the GeoMol neural network) are opaque per the specification;
they enter as parameters or as minimal structures carrying exactly the
observable data the framework reads and writes.  Wall-clock times and
Python floats are modelled as exact rationals.  Fallible Python code
(statements that can raise) is modelled with `Except PyErr`.
-/

namespace ConfGen

/-- The Python exceptions the embedded fragments can raise. -/
inductive PyErr where
  | attributeError
  | zeroDivision
  | fileNotFound
  | runtimeNotRun
  | notImplemented
  | copyFailed
deriving DecidableEq

/-! ## Embedder hierarchy (embedders.py) -/

/-- Molecule as seen by the embedder hierarchy: the 2D graph identity
(canonical SMILES string) plus the number of conformers currently stored.
Atomic coordinates are opaque to the core (spec section 1, out of scope). -/
structure EMol where
  graph : String
  nconfs : Nat
deriving DecidableEq

/-- RDKitMol.FromSmiles: a fresh molecule built from the identifier,
carrying no conformers. -/
def EMol.fromSmiles (s : String) : EMol := ⟨s, 0⟩

/-- RDKitMol.Copy(quickCopy=True): copy the molecular graph but drop all
conformers (embedders.py line 46). -/
def EMol.quickCopy (m : EMol) : EMol := ⟨m.graph, 0⟩

/-- One record appended by ConfGenEmbedder.update_stats. -/
structure EmbStat where
  iter : Nat
  time : ℚ
  n_success : Nat
  percent_success : ℚ
deriving DecidableEq

/-- Mutable state of a ConfGenEmbedder (embedders.py, __init__ lines
29-36).  `mol` is genuinely unset before the first call, hence `Option`. -/
structure EmbedderState where
  iter : Nat
  track_stats : Bool
  n_success : Option Nat
  percent_success : Option ℚ
  stats : List EmbStat
  smiles : Option String
  mol : Option EMol
deriving DecidableEq

/-- ConfGenEmbedder.__init__. -/
def EmbedderState.init (track_stats : Bool) : EmbedderState :=
  { iter := 0, track_stats := track_stats, n_success := none,
    percent_success := none, stats := [], smiles := none, mol := none }

/-- ConfGenEmbedder.update_mol (lines 38-46): rebuild the molecule from the
identifier only when the smiles changed; otherwise copy the graph from the
previous run and drop its conformers. -/
def update_mol (st : EmbedderState) (smiles : String) : EmbedderState :=
  if some smiles ≠ st.smiles then
    { st with smiles := some smiles, mol := some (EMol.fromSmiles smiles) }
  else
    { st with mol := st.mol.map EMol.quickCopy }

/-- Snapshot returned by write_mol_data (utils.mol_to_dict with the current
iteration number). -/
structure MolData where
  graph : String
  nconfs : Nat
  iter : Nat
deriving DecidableEq

/-- ConfGenEmbedder.__call__ (lines 67-81), parametric in the concrete
variant's embed_conformers.  `embed` receives the iteration counter it
observes (self.iter, already incremented), the requested conformer count and
the working molecule.  Reading self.mol when it was never assigned raises
AttributeError; update_stats with n_trials = 0 raises ZeroDivisionError. -/
def embCall (embed : Nat → Nat → EMol → EMol)
    (st : EmbedderState) (smiles : String) (n_conformers : Nat) (elapsed : ℚ) :
    Except PyErr (EmbedderState × MolData) :=
  let st1 := update_mol { st with iter := st.iter + 1 } smiles
  match st1.mol with
  | none => .error .attributeError
  | some m0 =>
    let mol := embed st1.iter n_conformers m0
    let st2 := { st1 with mol := some mol }
    let mol_data : MolData := ⟨mol.graph, mol.nconfs, st2.iter⟩
    if st2.track_stats then
      if n_conformers = 0 then .error .zeroDivision
      else
        let pct : ℚ := (mol.nconfs : ℚ) / (n_conformers : ℚ) * 100
        let stat : EmbStat := ⟨st2.iter, elapsed, mol.nconfs, pct⟩
        let st3 := { st2 with
          n_success := some mol.nconfs,
          percent_success := some pct,
          stats := st2.stats ++ [stat] }
        .ok (st3, mol_data)
    else
      .ok (st2, mol_data)

/-- k repeated invocations of __call__ with the same inputs; a raising call
leaves the state unchanged (with stats tracking off a call never raises,
proved below). -/
def embRunK (embed : Nat → Nat → EMol → EMol) (s : String) (n : Nat) (e : ℚ) :
    Nat → EmbedderState → EmbedderState
  | 0, st => st
  | Nat.succ k, st =>
    let stk := embRunK embed s n e k st
    match embCall embed stk s n e with
    | .ok (st1, _) => st1
    | .error _ => stk

/-- GeoMolEmbedder.embed_conformers, lines 106-110: the temperature update.
Given the schedule name, the base std (model_parameters hyperparams
random_vec_std, stored as self.std), the model's current random_vec_std and
the iteration counter, returns the std the model uses for sampling.  A
schedule that is neither "none" nor "linear" leaves the current value. -/
def geomol_set_std (temp_schedule : String) (base_std current_std : ℚ)
    (iterv : Nat) : ℚ :=
  if temp_schedule = "none" then base_std
  else if temp_schedule = "linear" then base_std * (1 + (iterv : ℚ) / 10)
  else current_std

/-! ## Task lifecycle (task/base.py) -/

/-- A file in the modelled filesystem: its directory path plus its name. -/
structure FileEnt where
  dir : String
  name : String
deriving DecidableEq

/-- One record produced by Task.prepare_stats. -/
structure TaskStat where
  iter : Nat
  time : ℚ
  n_success : Nat
  percent_success : ℚ
deriving DecidableEq

/-- State of a base Task together with the part of the filesystem it owns.
Fields mirror the attributes of task/base.py:
`last_run_time`, `n_subtasks`, `n_success` model the lazily-set private
attributes read through properties with defaults (`none` = never assigned);
`stats = none` models the fact that Task.__init__ never assigns self.stats;
`paths_set` is whether self._paths is a nonempty dict and `subtask_dirs`
the values of paths[subtask_dir];
`work_contents = none` means the work_dir no longer exists on disk;
`save_contents` are the files at save_dir (when distinct from work_dir);
`tmp_counter` drives fresh tempfile.mkdtemp names. -/
structure TaskState where
  track_stats : Bool
  save_dir : Option String
  work_dir : Option String
  iter : Nat
  keep_files : List String
  last_run_time : Option ℚ
  n_subtasks : Option Nat
  n_success : Option Nat
  stats : Option (List TaskStat)
  paths_set : Bool
  subtask_dirs : List String
  last_result : Option Bool
  work_contents : Option (List FileEnt)
  save_contents : List FileEnt
  tmp_counter : Nat
deriving DecidableEq

/-- tempfile.mkdtemp modelled as a fresh name drawn from a counter. -/
def mkTempDir (counter : Nat) : String := "/tmp/tmp" ++ toString counter

/-- Task.__init__ (lines 27-55) for the base Task (empty
request_external_software list, so the software gate is skipped; abspath is
modelled as the identity).  When both save_dir and work_dir are None a
temporary directory is created; otherwise the caller-visible filesystem
state at work_dir is the parameter `work_contents0`. -/
def Task.init (track_stats : Bool) (save_dir work_dir : Option String)
    (iterv : Nat) (work_contents0 : Option (List FileEnt))
    (save_contents0 : List FileEnt) (tmp_counter : Nat) : TaskState :=
  if save_dir = none ∧ work_dir = none then
    { track_stats := track_stats, save_dir := save_dir,
      work_dir := some (mkTempDir tmp_counter), iter := iterv,
      keep_files := ["*"], last_run_time := none, n_subtasks := none,
      n_success := none, stats := none, paths_set := false,
      subtask_dirs := [], last_result := none, work_contents := some [],
      save_contents := save_contents0, tmp_counter := tmp_counter + 1 }
  else
    { track_stats := track_stats, save_dir := save_dir, work_dir := work_dir,
      iter := iterv, keep_files := ["*"], last_run_time := none,
      n_subtasks := none, n_success := none, stats := none,
      paths_set := false, subtask_dirs := [], last_result := none,
      work_contents := work_contents0, save_contents := save_contents0,
      tmp_counter := tmp_counter }

/-- Task.update_work_dir (lines 75-90). -/
def update_work_dir (st : TaskState) : TaskState :=
  match st.work_dir with
  | some _ => st
  | none =>
    match st.save_dir with
    | none =>
      { st with work_dir := some (mkTempDir st.tmp_counter),
                work_contents := some [],
                tmp_counter := st.tmp_counter + 1 }
    | some s => { st with work_dir := some s }

/-- Property Task.n_subtasks: private attribute with default 1. -/
def TaskState.n_subtasksP (st : TaskState) : Nat := st.n_subtasks.getD 1

/-- Property Task.n_success: private attribute with default 0. -/
def TaskState.n_successP (st : TaskState) : Nat := st.n_success.getD 0

/-- Property Task.last_run_time (lines 159-167): raises RuntimeError when
the task has not been run yet. -/
def TaskState.last_run_timeP (st : TaskState) : Except PyErr ℚ :=
  match st.last_run_time with
  | some t => .ok t
  | none => .error .runtimeNotRun

/-- Property Task.percent_success (lines 209-217): n_success / n_subtasks *
100; Python float division raises ZeroDivisionError on a zero denominator. -/
def TaskState.percent_successP (st : TaskState) : Except PyErr ℚ :=
  if st.n_subtasksP = 0 then .error .zeroDivision
  else .ok ((st.n_successP : ℚ) / (st.n_subtasksP : ℚ) * 100)

/-- Task.prepare_stats (lines 219-232); the dict literal evaluates
last_run_time before percent_success, either of which can raise. -/
def prepare_stats (st : TaskState) : Except PyErr TaskStat := do
  let t ← st.last_run_timeP
  let p ← st.percent_successP
  .ok { iter := st.iter, time := t, n_success := st.n_successP,
        percent_success := p }

/-- Task.update_stats (lines 244-250): prepare_stats, merge in
prepare_extra_stats (empty for the base Task), then self.stats.append.
Reading self.stats raises AttributeError when the attribute was never
assigned, and Task.__init__ does not assign it. -/
def update_stats (st : TaskState) : Except PyErr TaskState := do
  let stat ← prepare_stats st
  match st.stats with
  | none => .error .attributeError
  | some l => .ok { st with stats := some (l ++ [stat]) }

/-- Environment of one call: the wall-clock duration the timer decorator
observes, and whether the shutil.copytree call succeeds (disk full and
similar resource errors). -/
structure Env where
  elapsed : ℚ
  copy_ok : Bool
deriving DecidableEq

/-- A file lies inside a subtask directory when its directory equals it or
is nested beneath it (os.walk recurses into subdirectories). -/
def underDir (sd dir : String) : Bool :=
  dir == sd || (sd ++ "/").isPrefixOf dir

/-- shutil.copytree(work_dir, save_dir, dirs_exist_ok=True): files copied
from work_dir replace same-path files already at save_dir, the rest of
save_dir is kept (merge into existing contents). -/
def mergeContents (save work : List FileEnt) : List FileEnt :=
  work ++ save.filter (fun f =>
    !(work.any (fun g => g.dir == f.dir && g.name == f.name)))

/-- Whether clean_work_dir deletes this file in its retention sweep: the
file is inside some registered subtask directory and its name is not in
keep_files. -/
def sweepDeletes (st : TaskState) (f : FileEnt) : Bool :=
  st.subtask_dirs.any (fun sd => underDir sd f.dir) &&
    !(st.keep_files.contains f.name)

/-- Task.clean_work_dir (lines 257-283).
shutil.rmtree raises FileNotFoundError when work_dir no longer exists;
os.walk on a missing subtask directory silently yields nothing;
osp.samefile raises FileNotFoundError when work_dir no longer exists
(save_dir is modelled as always existing, its creation being a
collaborator's concern); samefile is modelled as path equality, the
paths having been absolutized at construction. -/
def clean_work_dir (env : Env) (st : TaskState) : Except PyErr TaskState :=
  match st.save_dir with
  | none =>
    match st.work_contents with
    | none => .error .fileNotFound
    | some _ => .ok { st with work_contents := none }
  | some save =>
    if st.paths_set = false then .ok st
    else
      let st1 :=
        if st.keep_files.contains "*" then st
        else { st with work_contents :=
          st.work_contents.map (fun fs => fs.filter (fun f => !(sweepDeletes st f))) }
      match st1.work_contents with
      | none => .error .fileNotFound
      | some wfs =>
        if st1.work_dir = some save then .ok st1
        else if env.copy_ok then
          .ok { st1 with
                save_contents := mergeContents st1.save_contents wfs,
                work_contents := none }
        else .error .copyFailed

/-- Task.post_run (lines 305-311): by default, clean the working
directory. -/
def Task.post_run (env : Env) (st : TaskState) : Except PyErr TaskState :=
  clean_work_dir env st

/-- Task.run (lines 285-297): the timer-decorated default run; test=True
returns a trivial success, otherwise raises NotImplementedError. -/
def Task.runBase (test : Bool) : Except PyErr Bool :=
  if test then .ok true else .error .notImplemented

/-- Task.__call__ (lines 313-329) for the base Task with the default
hooks: pre_run is a no-op, run is timer-wrapped (one duration sample per
call), post_run cleans the working directory, save_data is a no-op, and
update_stats runs only when track_stats is set. -/
def Task.call (env : Env) (st : TaskState) (test : Bool) :
    Except PyErr (TaskState × Bool) := do
  let r ← Task.runBase test
  let st := { st with last_run_time := some env.elapsed, last_result := some r }
  let st ← Task.post_run env st
  let st ← if st.track_stats then update_stats st else pure st
  .ok (st, r)

/-- The cleanup policy exactly as claim C3 states it, written from the
specification's words: (1) with no save_dir, delete work_dir recursively
and nothing else; (2) else with no registered files, no-op; (3) else,
unless the keep-list contains the wildcard, delete every file inside every
registered subtask directory whose name is not in the keep-list; (4) then,
if save_dir and work_dir are distinct locations, copy the remaining
contents of work_dir into save_dir (merging with existing contents) and
delete work_dir. -/
def cleanupPolicySpec (env : Env) (st : TaskState) : Except PyErr TaskState :=
  if st.save_dir = none then
    .ok { st with work_contents := none }
  else if st.paths_set = false then
    .ok st
  else
    let remaining :=
      if st.keep_files.contains "*" then st.work_contents
      else st.work_contents.map (fun fs => fs.filter (fun f => !(sweepDeletes st f)))
    let st1 := { st with work_contents := remaining }
    if st1.work_dir = st.save_dir then .ok st1
    else if env.copy_ok then
      .ok { st1 with
            save_contents := mergeContents st1.save_contents ((remaining).getD []),
            work_contents := none }
    else .error .copyFailed

/-! ## Force-field optimizer (optimizer/forcefield.py) -/

/-- Molecule as seen by the optimizer: graph identity, per-conformer
geometry (opaque scalars standing for coordinate blocks), per-conformer
energies and keep flags. -/
structure OMol where
  graph : String
  confs : List ℚ
  energies : List ℚ
  keep_ids : List Bool
deriving DecidableEq

/-- RDKitMol.Copy(): a full copy of the molecule. -/
def OMol.copy (m : OMol) : OMol := m

/-- MMFFOptimizer.run (lines 39-56).  The force-field backend is external:
`ff_results` is the list returned by ff.optimize_confs, one
(return code, energy in kcal/mol) pair per conformer, and `ff_geoms` the
optimized geometries of ff.get_optimized_mol.  The source mutates only the
copy opt_mol, so the result is the pair (caller's molecule after the call,
opt_mol): the first component is the unmodified input. -/
def MMFFOptimizer.run (mol : OMol) (ff_results : List (Int × ℚ))
    (ff_geoms : List ℚ) : OMol × OMol :=
  let opt_mol := mol.copy
  let opt_mol := { opt_mol with confs := ff_geoms }
  let opt_mol := { opt_mol with
                   energies := ff_results.map Prod.snd,
                   keep_ids := (ff_results.map Prod.fst).map (fun s => s == 0) }
  (mol, opt_mol)

/-! ## Frequency verifier (verifier/gaussian.py) -/

/-- Molecule as seen by the frequency verifier: per-subtask frequency lists
(`none` = not yet computed) and per-subtask keep flags. -/
structure VMol where
  frequencies : List (Option (List ℚ))
  keep_ids : List Bool
deriving DecidableEq

/-- Result of parsing one external Gaussian log file. -/
structure LogResult where
  success : Bool
  freqs : List ℚ
deriving DecidableEq

/-- Modelled from the spec: FreqVerifier.need_calc_freqs is not under src/
(only its caller is); the spec says the external log is parsed exactly when
frequencies were not already computed for that conformer subtask. -/
def need_calc_freqs (mol : VMol) (subtask_id : Nat) : Bool :=
  (mol.frequencies.getD subtask_id none).isNone

/-- GaussianFreqVerifier.analyze_subtask_result (lines 51-69).
check_negative_freqs and the log parser live outside src/ and enter as
parameters: `chk` is the negative-frequency domain check (frequencies and
the ts flag in, keep flag out) and `log` the parse of
paths[log_file][subtask_id]; `ts` models kwargs ts or False.  On parse
failure the keep flag is set to false and the method returns (the print is
pure I/O); no branch raises. -/
def analyze_subtask_result (chk : List ℚ → Bool → Bool) (log : LogResult)
    (ts : Bool) (mol : VMol) (subtask_id : Nat) : VMol :=
  if need_calc_freqs mol subtask_id then
    if log.success then
      let mol1 := { mol with
        frequencies := mol.frequencies.set subtask_id (some log.freqs) }
      let keepv := chk ((mol1.frequencies.getD subtask_id none).getD []) ts
      { mol1 with keep_ids := mol1.keep_ids.set subtask_id keepv }
    else
      { mol with keep_ids := mol.keep_ids.set subtask_id false }
  else
    let keepv := chk ((mol.frequencies.getD subtask_id none).getD []) ts
    { mol with keep_ids := mol.keep_ids.set subtask_id keepv }

/-! ## Concrete instances used by witnesses and counterexamples -/

/-- A worst-case embed_conformers behaviour: appends the requested number of
conformers to whatever conformers the working molecule already holds. -/
def embedA : Nat → Nat → EMol → EMol := fun _ k m => ⟨m.graph, m.nconfs + k⟩

/-- The embedder state after one call of embedA on a fresh embedder with
smiles "CCO" and three requested conformers. -/
def est1 : EmbedderState :=
  ⟨1, false, none, none, [], some "CCO", some ⟨"CCO", 3⟩⟩

/-- A task state whose work_dir has already been removed (work_contents is
none) while no save_dir was configured. -/
def stWorkGone : TaskState :=
  { track_stats := false, save_dir := none, work_dir := some "/tmp/tmp0",
    iter := 0, keep_files := ["*"], last_run_time := none, n_subtasks := none,
    n_success := none, stats := none, paths_set := false, subtask_dirs := [],
    last_result := none, work_contents := none, save_contents := [],
    tmp_counter := 1 }

/-- A task state with save_dir configured, registered paths, a specific
keep-list, and files in the work directory. -/
def stFull : TaskState :=
  { track_stats := false, save_dir := some "/s", work_dir := some "/w",
    iter := 0, keep_files := ["a.log"], last_run_time := none,
    n_subtasks := none, n_success := none, stats := none, paths_set := true,
    subtask_dirs := ["/w/sub0"], last_result := none,
    work_contents := some [⟨"/w/sub0", "a.log"⟩, ⟨"/w/sub0", "b.tmp"⟩,
      ⟨"/w/sub0/deep", "c.tmp"⟩, ⟨"/w", "top.txt"⟩],
    save_contents := [⟨"/s", "old.txt"⟩], tmp_counter := 0 }

/-- A concrete optimizer-side molecule with two conformers. -/
def molC7 : OMol := ⟨"CCO", [1, 2], [], []⟩

/-- Concrete backend results: conformer 0 converged (code 0), conformer 1
did not (code 7). -/
def resC7 : List (Int × ℚ) := [(0, 5), (7, 6)]

/-- Concrete optimized geometries from the backend. -/
def geomsC7 : List ℚ := [10, 20]

/-- A concrete domain check for the verifier witness. -/
def chkW : List ℚ → Bool → Bool := fun fs _ => fs.isEmpty

/-- A concrete verifier-side molecule: subtask 0 has no frequencies yet,
subtask 1 already has them. -/
def molC8 : VMol := ⟨[none, some [3]], [true, true]⟩

/-! ## Helper lemmas about the embedder call -/

theorem update_mol_same {st : EmbedderState} {s : String}
    (h : st.smiles = some s) :
    update_mol st s = { st with mol := st.mol.map EMol.quickCopy } := by
  unfold update_mol
  simp [h]

theorem update_mol_diff {st : EmbedderState} {s : String}
    (h : st.smiles ≠ some s) :
    update_mol st s =
      { st with smiles := some s, mol := some (EMol.fromSmiles s) } := by
  have hne : some s ≠ st.smiles := fun hc => h hc.symm
  unfold update_mol
  simp [hne]

theorem update_mol_smiles (st : EmbedderState) (s : String) :
    (update_mol st s).smiles = some s := by
  unfold update_mol
  split
  · rfl
  · next h =>
    simp only [ne_eq, not_not] at h
    simp [← h]

theorem update_mol_iter (st : EmbedderState) (s : String) :
    (update_mol st s).iter = st.iter := by
  unfold update_mol
  split <;> rfl

theorem update_mol_track (st : EmbedderState) (s : String) :
    (update_mol st s).track_stats = st.track_stats := by
  unfold update_mol
  split <;> rfl

theorem update_mol_mol_isSome (st : EmbedderState) (s : String)
    (h2 : st.mol.isSome ∨ st.smiles ≠ some s) :
    ((update_mol st s).mol).isSome := by
  unfold update_mol
  split
  · simp
  · next h =>
    simp only [ne_eq, not_not] at h
    rcases h2 with h2 | h2
    · simpa using h2
    · exact absurd h.symm h2

theorem embCall_ok_inv {embed : Nat → Nat → EMol → EMol} {st : EmbedderState}
    {s : String} {n : Nat} {e : ℚ} {st1 : EmbedderState} {d : MolData}
    (h : embCall embed st s n e = .ok (st1, d)) :
    ∃ m0, (update_mol { st with iter := st.iter + 1 } s).mol = some m0 ∧
      st1.smiles = some s ∧
      st1.iter = st.iter + 1 ∧
      st1.track_stats = st.track_stats ∧
      st1.mol = some (embed (st.iter + 1) n m0) ∧
      d.nconfs = (embed (st.iter + 1) n m0).nconfs := by
  simp only [embCall] at h
  have hAs : (update_mol { st with iter := st.iter + 1 } s).smiles = some s :=
    update_mol_smiles _ _
  have hAi : (update_mol { st with iter := st.iter + 1 } s).iter = st.iter + 1 :=
    update_mol_iter _ _
  have hAt : (update_mol { st with iter := st.iter + 1 } s).track_stats
      = st.track_stats := update_mol_track _ _
  split at h
  · simp at h
  · next m0 hm =>
    refine ⟨m0, hm, ?_⟩
    split at h
    · split at h
      · simp at h
      · simp only [Except.ok.injEq, Prod.mk.injEq] at h
        obtain ⟨h1, h2⟩ := h
        subst h1; subst h2
        refine ⟨by simpa using hAs, by simpa using hAi, by simpa using hAt,
          by simp [hAi], by simp [hAi]⟩
    · simp only [Except.ok.injEq, Prod.mk.injEq] at h
      obtain ⟨h1, h2⟩ := h
      subst h1; subst h2
      refine ⟨by simpa using hAs, by simpa using hAi, by simpa using hAt,
        by simp [hAi], by simp [hAi]⟩

theorem embCall_no_error (embed : Nat → Nat → EMol → EMol)
    (st : EmbedderState) (s : String) (n : Nat) (e : ℚ)
    (h1 : st.track_stats = false)
    (h2 : st.mol.isSome ∨ st.smiles ≠ some s) :
    ∀ err, embCall embed st s n e ≠ .error err := by
  intro err hc
  have hs : ((update_mol { st with iter := st.iter + 1 } s).mol).isSome :=
    update_mol_mol_isSome _ s (by simpa using h2)
  have hAt : (update_mol { st with iter := st.iter + 1 } s).track_stats
      = st.track_stats := update_mol_track _ _
  simp only [embCall] at hc
  split at hc
  · next hm => rw [hm] at hs; simp at hs
  · next m0 hm =>
    split at hc
    · next ht =>
      rw [show ({ update_mol { st with iter := st.iter + 1 } s with
            mol := some (embed (update_mol { st with iter := st.iter + 1 } s).iter
              n m0) } : EmbedderState).track_stats
          = (update_mol { st with iter := st.iter + 1 } s).track_stats from rfl,
        hAt, h1] at ht
      simp at ht
    · simp at hc

theorem embCall_track_false_ok (embed : Nat → Nat → EMol → EMol)
    (st : EmbedderState) (s : String) (n : Nat) (e : ℚ)
    (h1 : st.track_stats = false)
    (h2 : st.mol.isSome ∨ st.smiles ≠ some s) :
    ∃ st1 d, embCall embed st s n e = .ok (st1, d) ∧
      st1.iter = st.iter + 1 ∧ st1.track_stats = false ∧
      st1.smiles = some s ∧ st1.mol.isSome := by
  cases hcall : embCall embed st s n e with
  | error err => exact absurd hcall (embCall_no_error embed st s n e h1 h2 err)
  | ok p =>
    obtain ⟨st1, d⟩ := p
    obtain ⟨m0, _, hsm, hit, htr, hmol, _⟩ := embCall_ok_inv hcall
    exact ⟨st1, d, rfl, hit, htr.trans h1, hsm, by rw [hmol]; rfl⟩

theorem embRunK_inv (embed : Nat → Nat → EMol → EMol) (s : String) (n : Nat)
    (e : ℚ) : ∀ k : Nat,
    (embRunK embed s n e k (EmbedderState.init false)).iter = k ∧
    (embRunK embed s n e k (EmbedderState.init false)).track_stats = false ∧
    ((embRunK embed s n e k (EmbedderState.init false)).mol.isSome ∨
      (embRunK embed s n e k (EmbedderState.init false)).smiles ≠ some s)
  | 0 => by
    refine ⟨rfl, rfl, Or.inr ?_⟩
    simp [embRunK, EmbedderState.init]
  | Nat.succ k => by
    obtain ⟨ih1, ih2, ih3⟩ := embRunK_inv embed s n e k
    obtain ⟨st1, d, hcall, hiter, htrack, hsm, hmol⟩ :=
      embCall_track_false_ok embed _ s n e ih2 ih3
    simp only [embRunK, hcall]
    exact ⟨by rw [hiter, ih1], htrack, Or.inl hmol⟩

/-! ## Claim theorems for the embedder hierarchy -/

/-- Claim C2: for every ConfGenEmbedder, invoking __call__ twice with the
same identifier carries no conformers over: when the identifier is unchanged
the working molecule's graph is copied without conformers, it is rebuilt
from the identifier exactly when the identifier differs from the previous
call, and for any embed_conformers that fills an empty molecule with the
requested number of conformers, the second snapshot's conformer count is
exactly the second call's requested count, never the sum of both counts. -/
theorem c2_no_conformer_carryover :
    (∀ (st : EmbedderState) (s : String), st.smiles = some s →
        (update_mol st s).mol = st.mol.map (fun m => EMol.mk m.graph 0) ∧
        (update_mol st s).smiles = st.smiles) ∧
    (∀ (st : EmbedderState) (s : String), st.smiles ≠ some s →
        update_mol st s =
          { st with smiles := some s, mol := some (EMol.fromSmiles s) }) ∧
    (∀ (embed : Nat → Nat → EMol → EMol),
      (∀ i k m, m.nconfs = 0 → (embed i k m).nconfs = k) →
      ∀ (st0 : EmbedderState) (s : String) (n1 n2 : Nat) (e1 e2 : ℚ)
        (st1 : EmbedderState) (d1 : MolData) (st2 : EmbedderState) (d2 : MolData),
        embCall embed st0 s n1 e1 = .ok (st1, d1) →
        embCall embed st1 s n2 e2 = .ok (st2, d2) →
        d2.nconfs = n2 ∧ (0 < n1 → d2.nconfs ≠ n1 + n2)) := by
  refine ⟨fun st s h => ?_, fun st s h => ?_, fun embed hembed => ?_⟩
  · rw [update_mol_same h]
    exact ⟨rfl, rfl⟩
  · exact update_mol_diff h
  · intro st0 s n1 n2 e1 e2 st1 d1 st2 d2 h1 h2
    obtain ⟨m0, _, hsm1, _, _, hmol1, _⟩ := embCall_ok_inv h1
    obtain ⟨m0v, hm0v, _, _, _, _, hd2⟩ := embCall_ok_inv h2
    have hsame : ({ st1 with iter := st1.iter + 1 } : EmbedderState).smiles
        = some s := hsm1
    rw [update_mol_same hsame] at hm0v
    simp only [hmol1, Option.map_some] at hm0v
    have hm0vq : m0v = EMol.quickCopy (embed (st0.iter + 1) n1 m0) := by
      simpa using hm0v.symm
    have hzero : m0v.nconfs = 0 := by rw [hm0vq]; rfl
    have : d2.nconfs = n2 := by rw [hd2, hembed _ _ _ hzero]
    exact ⟨this, fun hn1 => by omega⟩

/-- Claim C9: for the learned embedder, the linear temperature schedule
sets the sampling noise std to base_std * (1 + iter/10): the base value at
iter = 0, exactly twice the base value at iter = 10, while the none
schedule keeps it at the base value for every iter. -/
theorem c9_linear_temperature_schedule :
    (∀ (b c : ℚ) (k : Nat),
        geomol_set_std "linear" b c k = b * (1 + (k : ℚ) / 10)) ∧
    (∀ b c : ℚ, geomol_set_std "linear" b c 0 = b) ∧
    (∀ b c : ℚ, geomol_set_std "linear" b c 10 = 2 * b) ∧
    (∀ (b c : ℚ) (k : Nat), geomol_set_std "none" b c k = b) := by
  refine ⟨fun b c k => ?_, fun b c => ?_, fun b c => ?_, fun b c k => ?_⟩
  · simp [geomol_set_std]
  · simp [geomol_set_std]
  · simp [geomol_set_std]
    ring
  · simp [geomol_set_std]

/-- Claim C10: ConfGenEmbedder.__call__ increments the iter counter before
delegating to embed_conformers: embed_conformers observes iter = previous
iter + 1 and works on the molecule produced by update_mol; after k calls on
a fresh embedder the counter equals k, so embed_conformers never runs with
iter = 0, and under the linear schedule the very first invocation (iter =
0 + 1) already uses base_std * 11/10 rather than the base value. -/
theorem c10_iter_incremented_before_embed :
    (∀ (embed : Nat → Nat → EMol → EMol) (s : String) (n : Nat) (e : ℚ)
        (st st1 : EmbedderState) (d : MolData),
        embCall embed st s n e = .ok (st1, d) →
        st1.iter = st.iter + 1 ∧ 0 < st1.iter ∧
        st1.mol = ((update_mol { st with iter := st.iter + 1 } s).mol).map
          (embed (st.iter + 1) n)) ∧
    (∀ (embed : Nat → Nat → EMol → EMol) (s : String) (n : Nat) (e : ℚ)
        (k : Nat), (embRunK embed s n e k (EmbedderState.init false)).iter = k) ∧
    (∀ b c : ℚ, geomol_set_std "linear" b c (0 + 1) = b * (11 / 10)) := by
  refine ⟨fun embed s n e st st1 d h => ?_, fun embed s n e k =>
    (embRunK_inv embed s n e k).1, fun b c => ?_⟩
  · obtain ⟨m0, hm0, _, hit, _, hmol, _⟩ := embCall_ok_inv h
    refine ⟨hit, by omega, ?_⟩
    rw [hmol, hm0]
    rfl
  · unfold geomol_set_std
    rw [if_neg (by decide), if_pos rfl]
    norm_num

/-- Witness for C2 at concrete inputs: a fresh embedder called twice with
smiles CCO, first requesting 3 conformers and then 2, with an appending
embed_conformers; the second snapshot holds 2 conformers, not 5. -/
theorem c2_no_conformer_carryover_witness :
    ((update_mol est1 "CCO").mol = est1.mol.map (fun m => EMol.mk m.graph 0) ∧
      (update_mol est1 "CCO").smiles = est1.smiles) ∧
    (update_mol (EmbedderState.init false) "CCO" =
      { EmbedderState.init false with smiles := some "CCO", mol := some (EMol.fromSmiles "CCO") }) ∧
    ((MolData.mk "CCO" 2 2).nconfs = 2 ∧
      (0 < 3 → (MolData.mk "CCO" 2 2).nconfs ≠ 3 + 2)) :=
  ⟨c2_no_conformer_carryover.1 est1 "CCO" rfl,
   c2_no_conformer_carryover.2.1 (EmbedderState.init false) "CCO"
     (by simp [EmbedderState.init]),
   c2_no_conformer_carryover.2.2 embedA (fun i k m h => by simp [embedA, h])
     (EmbedderState.init false) "CCO" 3 2 0 0 est1 ⟨"CCO", 3, 1⟩
     ⟨2, false, none, none, [], some "CCO", some ⟨"CCO", 2⟩⟩ ⟨"CCO", 2, 2⟩
     rfl rfl⟩

/-- Witness for C10 at concrete inputs: the first call of a fresh embedder
hands iter = 1 to embed_conformers. -/
theorem c10_iter_incremented_before_embed_witness :
    est1.iter = (EmbedderState.init false).iter + 1 ∧ 0 < est1.iter ∧
    est1.mol = ((update_mol { EmbedderState.init false with iter := (EmbedderState.init false).iter + 1 } "CCO").mol).map
      (embedA ((EmbedderState.init false).iter + 1) 3) :=
  c10_iter_incremented_before_embed.1 embedA "CCO" 3 0
    (EmbedderState.init false) est1 ⟨"CCO", 3, 1⟩ rfl

/-! ## Helper lemmas about the Task lifecycle -/

theorem uwd_isSome (st : TaskState) : (update_work_dir st).work_dir.isSome := by
  unfold update_work_dir
  split
  · next w hw => simp [hw]
  · next hw =>
    split
    · simp
    · simp

theorem uwd_eq_of_some (st : TaskState) (h : st.work_dir ≠ none) :
    update_work_dir st = st := by
  unfold update_work_dir
  split
  · rfl
  · next hw => exact absurd hw h

theorem uwd_save (st : TaskState) (h1 : st.work_dir = none)
    (h2 : st.save_dir ≠ none) : (update_work_dir st).work_dir = st.save_dir := by
  unfold update_work_dir
  split
  · next w hw => rw [hw] at h1; cases h1
  · split
    · next hs => exact absurd hs h2
    · next s hs => simp [hs]

theorem uwd_tmp (st : TaskState) (h1 : st.work_dir = none)
    (h2 : st.save_dir = none) :
    (update_work_dir st).work_dir = some (mkTempDir st.tmp_counter) := by
  unfold update_work_dir
  split
  · next w hw => rw [hw] at h1; cases h1
  · split
    · rfl
    · next s hs => rw [hs] at h2; cases h2

theorem uwd_idem (st : TaskState) :
    update_work_dir (update_work_dir st) = update_work_dir st :=
  uwd_eq_of_some _ (Option.ne_none_iff_isSome.mpr (uwd_isSome st))

/-! ## Claim theorems for the Task lifecycle -/

/-- Claim C1 (code bug): a Task constructed with track_stats = True never
gets its stats history initialized (Task.__init__ assigns no stats
attribute), so the first completed run raises AttributeError at
self.stats.append inside update_stats instead of appending the record the
specification promises. -/
theorem c1_stats_never_initialized :
    (Task.init true none none 0 none [] 0).stats = none ∧
    Task.call ⟨0, true⟩ (Task.init true none none 0 none [] 0) true =
      .error .attributeError :=
  ⟨rfl, rfl⟩

/-- Claim C5: reading last_run_time on a Task before any run has completed
raises the not-yet-run error rather than returning a default value, and
reading percent_success when n_subtasks = 0 raises a zero-division error
rather than silently returning an undefined ratio. -/
theorem c5_misuse_errors :
    (∀ (track : Bool) (sd wd : Option String) (it : Nat)
        (wc : Option (List FileEnt)) (sc : List FileEnt) (tc : Nat),
        (Task.init track sd wd it wc sc tc).last_run_timeP =
          .error .runtimeNotRun) ∧
    (∀ st : TaskState, st.n_subtasksP = 0 →
        st.percent_successP = .error .zeroDivision) := by
  constructor
  · intro track sd wd it wc sc tc
    have h : (Task.init track sd wd it wc sc tc).last_run_time = none := by
      unfold Task.init
      split <;> rfl
    unfold TaskState.last_run_timeP
    rw [h]
  · intro st h
    unfold TaskState.percent_successP
    rw [if_pos h]

/-- Witness for C5 at concrete inputs: a fresh task, and a task whose
n_subtasks was set to 0. -/
theorem c5_misuse_errors_witness :
    (Task.init false none none 0 none [] 0).last_run_timeP =
      .error .runtimeNotRun ∧
    ({ Task.init false none none 0 none [] 0 with n_subtasks := some 0 }
      : TaskState).percent_successP = .error .zeroDivision :=
  ⟨c5_misuse_errors.1 false none none 0 none [] 0,
   c5_misuse_errors.2 _ rfl⟩

/-- Claim C6: update_work_dir idempotently ensures work_dir is non-null:
when work_dir is null it becomes save_dir when save_dir is present and a
freshly allocated temporary directory otherwise; when already non-null the
state is unchanged; afterwards work_dir is never None, so calling it twice
equals calling it once. -/
theorem c6_update_work_dir_idempotent :
    (∀ st : TaskState, (update_work_dir st).work_dir.isSome = true) ∧
    (∀ st : TaskState, st.work_dir ≠ none → update_work_dir st = st) ∧
    (∀ st : TaskState, st.work_dir = none → st.save_dir ≠ none →
        (update_work_dir st).work_dir = st.save_dir) ∧
    (∀ st : TaskState, st.work_dir = none → st.save_dir = none →
        (update_work_dir st).work_dir = some (mkTempDir st.tmp_counter)) ∧
    (∀ st : TaskState, update_work_dir (update_work_dir st) = update_work_dir st) :=
  ⟨fun st => uwd_isSome st, fun st => uwd_eq_of_some st,
   fun st => uwd_save st, fun st => uwd_tmp st, fun st => uwd_idem st⟩

/-- Witness for C6 at concrete inputs: a task with only a save_dir (work_dir
lazily becomes save_dir), one with an explicit work_dir (unchanged), and one
with neither (fresh temporary directory). -/
theorem c6_update_work_dir_idempotent_witness :
    (update_work_dir (Task.init false none (some "/w") 0 (some []) [] 0)).work_dir.isSome = true ∧
    update_work_dir (Task.init false none (some "/w") 0 (some []) [] 0) =
      Task.init false none (some "/w") 0 (some []) [] 0 ∧
    (update_work_dir { Task.init false (some "/s") none 0 none [] 0 with work_dir := none }).work_dir =
      ({ Task.init false (some "/s") none 0 none [] 0 with work_dir := none } : TaskState).save_dir ∧
    (update_work_dir { Task.init false none (some "/w") 0 (some []) [] 5 with work_dir := none, save_dir := none }).work_dir =
      some (mkTempDir 5) :=
  ⟨c6_update_work_dir_idempotent.1 _,
   c6_update_work_dir_idempotent.2.1 _ (by decide),
   c6_update_work_dir_idempotent.2.2.1 _ rfl (by decide),
   c6_update_work_dir_idempotent.2.2.2.1 _ rfl rfl⟩

/-- Claim C3: post-run cleanup is exactly clean_work_dir, and on any state
whose work directory still exists clean_work_dir implements precisely the
four-step policy of the specification (no save_dir: delete work_dir and
nothing else; no registered paths: no-op; otherwise sweep non-kept files
from registered subtask directories unless the keep-list holds the
wildcard; then, for distinct locations, merge-copy work_dir into save_dir
and delete work_dir). -/
theorem c3_cleanup_policy :
    (∀ (env : Env) (st : TaskState), Task.post_run env st = clean_work_dir env st) ∧
    (∀ (env : Env) (st : TaskState) (wfs : List FileEnt),
        st.work_contents = some wfs →
        clean_work_dir env st = cleanupPolicySpec env st) := by
  constructor
  · intro env st
    rfl
  · intro env st wfs h
    obtain ⟨tr, sd, wd, it, kf, lrt, nst, nsc, stt, ps, sdirs, lr, wc, svc, tc⟩ := st
    simp only at h
    subst h
    unfold clean_work_dir cleanupPolicySpec
    cases sd with
    | none => simp
    | some save =>
      cases ps with
      | false => simp
      | true =>
        by_cases hk : "*" ∈ kf <;>
          by_cases hw : wd = some save <;>
          by_cases hc : env.copy_ok = true <;>
          simp [hk, hw, hc]

/-- Witness for C3 at a concrete state with save_dir, registered subtask
paths, a specific keep-list and files on disk. -/
theorem c3_cleanup_policy_witness :
    Task.post_run ⟨0, true⟩ stFull = clean_work_dir ⟨0, true⟩ stFull ∧
    clean_work_dir ⟨0, true⟩ stFull = cleanupPolicySpec ⟨0, true⟩ stFull :=
  ⟨c3_cleanup_policy.1 ⟨0, true⟩ stFull,
   c3_cleanup_policy.2 ⟨0, true⟩ stFull _ rfl⟩

/-- Counterexample to claim C4 as stated: on a task with no save_dir whose
work_dir has already been removed, clean_work_dir raises FileNotFoundError
(shutil.rmtree on a missing directory) instead of not raising. -/
theorem c4_counterexample_cleanup_raises :
    stWorkGone.save_dir = none ∧ stWorkGone.work_contents = none ∧
    clean_work_dir ⟨0, true⟩ stWorkGone = .error .fileNotFound :=
  ⟨rfl, rfl, rfl⟩

/-- Claim C4 amended: invoking clean_work_dir when work_dir has already
been removed raises FileNotFoundError (from rmtree when no save_dir is
configured, from samefile when files were registered), and is a no-op only
in the save_dir-configured, no-registered-paths case; a failure of the
directory copy into save_dir propagates to the caller of __call__. -/
theorem c4_cleanup_error_propagation :
    (∀ (env : Env) (st : TaskState), st.save_dir = none →
        st.work_contents = none →
        clean_work_dir env st = .error .fileNotFound) ∧
    (∀ (env : Env) (st : TaskState) (save : String), st.save_dir = some save →
        st.paths_set = true → st.work_contents = none →
        clean_work_dir env st = .error .fileNotFound) ∧
    (∀ (env : Env) (st : TaskState) (save : String), st.save_dir = some save →
        st.paths_set = false → clean_work_dir env st = .ok st) ∧
    (∀ (env : Env) (st : TaskState) (save : String) (wfs : List FileEnt),
        env.copy_ok = false → st.save_dir = some save → st.paths_set = true →
        st.work_contents = some wfs → st.work_dir ≠ some save →
        Task.call env st true = .error .copyFailed) := by
  refine ⟨fun env st h1 h2 => ?_, fun env st save h1 h2 h3 => ?_,
    fun env st save h1 h2 => ?_, fun env st save wfs hc h1 h2 h3 h4 => ?_⟩
  · unfold clean_work_dir
    simp [h1, h2]
  · obtain ⟨tr, sd, wd, it, kf, lrt, nst, nsc, stt, ps, sdirs, lr, wc, svc, tc⟩ := st
    simp only at h1 h2 h3
    subst h1; subst h2; subst h3
    unfold clean_work_dir
    by_cases hk : "*" ∈ kf <;> simp [hk]
  · unfold clean_work_dir
    simp [h1, h2]
  · obtain ⟨tr, sd, wd, it, kf, lrt, nst, nsc, stt, ps, sdirs, lr, wc, svc, tc⟩ := st
    simp only at h1 h2 h3 h4
    subst h1; subst h2; subst h3
    unfold Task.call Task.runBase Task.post_run clean_work_dir
    by_cases hk : "*" ∈ kf
    · simp [hk, h4, hc]
      rfl
    · simp [hk, h4, hc]
      rfl

/-- Witness for C4 at concrete inputs: removed work_dir with no save_dir,
removed work_dir with registered paths, the no-op case, and a failing copy
propagating through __call__. -/
theorem c4_cleanup_error_propagation_witness :
    clean_work_dir ⟨0, true⟩ stWorkGone = .error .fileNotFound ∧
    clean_work_dir ⟨0, true⟩
      { stWorkGone with save_dir := some "/s", paths_set := true } =
      .error .fileNotFound ∧
    clean_work_dir ⟨0, true⟩ { stWorkGone with save_dir := some "/s" } =
      .ok { stWorkGone with save_dir := some "/s" } ∧
    Task.call ⟨0, false⟩ stFull true = .error .copyFailed :=
  ⟨c4_cleanup_error_propagation.1 ⟨0, true⟩ stWorkGone rfl rfl,
   c4_cleanup_error_propagation.2.1 ⟨0, true⟩ _ "/s" rfl rfl rfl,
   c4_cleanup_error_propagation.2.2.1 ⟨0, true⟩ _ "/s" rfl rfl,
   c4_cleanup_error_propagation.2.2.2 ⟨0, false⟩ stFull "/s" _ rfl rfl rfl rfl
     (by decide)⟩

/-! ## Helper lemmas about lists -/

theorem getD_map_lt {α β : Type} (f : α → β) (l : List α) (i : Nat) (d : β)
    (dd : α) (h : i < l.length) : (l.map f).getD i d = f (l.getD i dd) := by
  induction l generalizing i with
  | nil => simp at h
  | cons x t ih =>
    cases i with
    | zero => rfl
    | succ j =>
      have hj : j < t.length := by simpa using h
      simpa [List.getD_cons_succ] using ih j hj

/-! ## Claim theorems for optimizer and verifier -/

/-- Claim C7: MMFFOptimizer.run works on a copy (the input molecule comes
back unmodified), keeps the graph, annotates the result with the backend's
per-conformer energies, and sets the keep flag of a conformer to true
exactly when the backend reports convergence code zero; with one backend
result per conformer, every conformer gets an energy and a flag. -/
theorem c7_mmff_optimizer_run :
    ∀ (mol : OMol) (ff_results : List (Int × ℚ)) (ff_geoms : List ℚ),
      (MMFFOptimizer.run mol ff_results ff_geoms).1 = mol ∧
      (MMFFOptimizer.run mol ff_results ff_geoms).2.graph = mol.graph ∧
      (MMFFOptimizer.run mol ff_results ff_geoms).2.energies =
        ff_results.map Prod.snd ∧
      (MMFFOptimizer.run mol ff_results ff_geoms).2.keep_ids =
        (ff_results.map Prod.fst).map (fun s => s == 0) ∧
      (∀ i, i < ff_results.length →
        ((MMFFOptimizer.run mol ff_results ff_geoms).2.keep_ids.getD i false
            = true ↔ (ff_results.getD i (1, 0)).1 = 0)) ∧
      (ff_results.length = mol.confs.length →
        (MMFFOptimizer.run mol ff_results ff_geoms).2.energies.length
            = mol.confs.length ∧
        (MMFFOptimizer.run mol ff_results ff_geoms).2.keep_ids.length
            = mol.confs.length) := by
  intro mol ff_results ff_geoms
  refine ⟨rfl, rfl, rfl, rfl, fun i hi => ?_, fun hlen => ?_⟩
  · have h1 : ((ff_results.map Prod.fst).map (fun s => s == 0)).getD i false
        = ((ff_results.map Prod.fst).getD i 1 == 0) :=
      getD_map_lt _ _ i false 1 (by simpa using hi)
    have h2 : (ff_results.map Prod.fst).getD i 1
        = (ff_results.getD i (1, 0)).1 :=
      getD_map_lt _ _ i 1 (1, 0) hi
    show ((ff_results.map Prod.fst).map (fun s => s == 0)).getD i false
        = true ↔ _
    rw [h1, h2]
    simp
  · constructor
    · show (ff_results.map Prod.snd).length = mol.confs.length
      simpa using hlen
    · show ((ff_results.map Prod.fst).map (fun s => s == 0)).length
          = mol.confs.length
      simpa using hlen

/-- Witness for C7 at concrete inputs: two conformers, one converged with
code 0 (kept) and one with code 7. -/
theorem c7_mmff_optimizer_run_witness :
    ((MMFFOptimizer.run molC7 resC7 geomsC7).2.keep_ids.getD 0 false = true
      ↔ (resC7.getD 0 (1, 0)).1 = 0) ∧
    ((MMFFOptimizer.run molC7 resC7 geomsC7).2.keep_ids.getD 1 false = true
      ↔ (resC7.getD 1 (1, 0)).1 = 0) ∧
    (MMFFOptimizer.run molC7 resC7 geomsC7).2.energies.length
      = molC7.confs.length ∧
    (MMFFOptimizer.run molC7 resC7 geomsC7).2.keep_ids.length
      = molC7.confs.length :=
  ⟨(c7_mmff_optimizer_run molC7 resC7 geomsC7).2.2.2.2.1 0 (by decide),
   (c7_mmff_optimizer_run molC7 resC7 geomsC7).2.2.2.2.1 1 (by decide),
   ((c7_mmff_optimizer_run molC7 resC7 geomsC7).2.2.2.2.2 rfl).1,
   ((c7_mmff_optimizer_run molC7 resC7 geomsC7).2.2.2.2.2 rfl).2⟩

/-- Claim C8: for each conformer subtask of the frequency verifier, when
frequencies are not yet computed the log is parsed: on parse failure that
subtask's keep flag becomes false and the method returns without raising
(the embedding is a total function); on parse success the parsed
frequencies are stored at that subtask's index and the keep flag is the
negative-frequency domain check; when frequencies were already computed the
stored ones are checked. -/
theorem c8_freq_verifier_subtask :
    ∀ (chk : List ℚ → Bool → Bool) (log : LogResult) (ts : Bool) (mol : VMol)
      (i : Nat), i < mol.frequencies.length →
      (need_calc_freqs mol i = true → log.success = false →
        analyze_subtask_result chk log ts mol i =
          { mol with keep_ids := mol.keep_ids.set i false }) ∧
      (need_calc_freqs mol i = true → log.success = true →
        (analyze_subtask_result chk log ts mol i).frequencies =
          mol.frequencies.set i (some log.freqs) ∧
        (analyze_subtask_result chk log ts mol i).keep_ids =
          mol.keep_ids.set i (chk log.freqs ts)) ∧
      (need_calc_freqs mol i = false →
        (analyze_subtask_result chk log ts mol i).frequencies =
          mol.frequencies ∧
        (analyze_subtask_result chk log ts mol i).keep_ids =
          mol.keep_ids.set i (chk ((mol.frequencies.getD i none).getD []) ts)) := by
  intro chk log ts mol i hi
  refine ⟨fun hneed hfail => ?_, fun hneed hsucc => ?_, fun hneed => ?_⟩
  · unfold analyze_subtask_result
    simp [hneed, hfail]
  · unfold analyze_subtask_result
    simp [hneed, hsucc, List.getElem?_set_eq_of_lt _ hi]
  · unfold analyze_subtask_result
    simp [hneed]

/-- Witness for C8 at concrete inputs: a failing parse marks subtask 0
discarded, a successful parse stores frequencies and checks them, and a
subtask with precomputed frequencies skips parsing. -/
theorem c8_freq_verifier_subtask_witness :
    analyze_subtask_result chkW ⟨false, []⟩ false molC8 0 =
      { molC8 with keep_ids := molC8.keep_ids.set 0 false } ∧
    ((analyze_subtask_result chkW ⟨true, [1, 2]⟩ false molC8 0).frequencies =
      molC8.frequencies.set 0 (some [1, 2]) ∧
    (analyze_subtask_result chkW ⟨true, [1, 2]⟩ false molC8 0).keep_ids =
      molC8.keep_ids.set 0 (chkW [1, 2] false)) ∧
    ((analyze_subtask_result chkW ⟨true, [1, 2]⟩ false molC8 1).frequencies =
      molC8.frequencies ∧
    (analyze_subtask_result chkW ⟨true, [1, 2]⟩ false molC8 1).keep_ids =
      molC8.keep_ids.set 1 (chkW ((molC8.frequencies.getD 1 none).getD []) false)) :=
  ⟨(c8_freq_verifier_subtask chkW ⟨false, []⟩ false molC8 0 (by decide)).1
     rfl rfl,
   (c8_freq_verifier_subtask chkW ⟨true, [1, 2]⟩ false molC8 0 (by decide)).2.1
     rfl rfl,
   (c8_freq_verifier_subtask chkW ⟨true, [1, 2]⟩ false molC8 1 (by decide)).2.2
     rfl⟩

end ConfGen
